import Mathlib

/-!
Verification of the runtime support routine in
src/modules/wycc/clib/wycc__isDigit.c (Whiley runtime C library).

Shallow embedding notes.
The C file manipulates heap-allocated tagged boxes (wycc_obj with fields
typ, ptr, cnt) and a process-wide FOM registry plus a load-time chain of
module records.  The headers wycc_lib.h, common.h and box.h are
not part of the given sources, so the collaborators they declare
(wycc_box_bool, wycc_register_routine, WY_PANIC, WY_OBJ_SANE, the tag
enumeration) are modelled from the specification, each marked as such in
its doc comment.  The function wycc__isDigit itself is transcribed from
the C source.

Two layers are used.  The value layer (wycc__isDigit) gives the
value-level semantics: a box in, Except of a fatal runtime error and a
box out.  The heap layer (wycc__isDigitH) threads an explicit runtime
state (a heap of boxes addressed by position and the registry), with the
result box appended as a fresh allocation; it is used for the frame and
idempotence properties, where "no mutation" and "two successive calls"
must be visible in the model.
-/

/-- Type tags of the boxed-value runtime.  Modelled from the spec:
the tag enumeration lives in the missing header; the spec lists at least
the variants Integer, Character, Byte, Boolean, with further variants
existing in the full runtime (covered here by Wy_Other). -/
inductive WyTyp : Type where
  | Wy_Int : WyTyp
  | Wy_Char : WyTyp
  | Wy_Byte : WyTyp
  | Wy_Bool : WyTyp
  | Wy_Other : Nat → WyTyp
  deriving DecidableEq

/-- A tagged box.  Modelled from the spec: a type tag, a payload that is
read as a signed native integer for the numeric-like variants (the C
code reads it as (long) itm->ptr), and a reference count owned by the
wider runtime and never consulted by this file. -/
structure wycc_obj : Type where
  typ : WyTyp
  ptr : Int
  cnt : Nat
  deriving DecidableEq

/-- Fatal runtime errors.  Modelled from the spec: WY_PANIC writes a
formatted diagnostic (format string plus the offending tag argument) to
the error stream and the process then terminates with the given exit
status; WY_OBJ_SANE aborts on a malformed or null box, naming the
function that performed the check.  Neither returns to the caller,
hence both are modelled as the error branch of Except. -/
inductive RtError : Type where
  | panic : String → WyTyp → Int → RtError
  | unsane : String → RtError
  deriving DecidableEq

/-- The format string the C source passes to WY_PANIC on an unsupported
tag (note: it names wycc__isLetter, not wycc__isDigit). -/
def panicFmt : String := "Help needed in wycc__isLetter for type %d\n"

/-- Modelled from the spec: wycc_box_bool (declared in the missing
box.h) returns a newly allocated tagged value of variant Boolean
wrapping 0 or 1; ownership transfers to the caller.  The fresh box
starts with reference count 1. -/
def wycc_box_bool (x : Int) : wycc_obj :=
  { typ := WyTyp.Wy_Bool, ptr := x, cnt := 1 }

/-- Tail of wycc__isDigit after the dispatch: in the C source all three
accepted branches set val = (long) itm->ptr and fall through to this
common range check (val < 0 gives false; ans starts at 1 and is zeroed
when val < the code point 48 of the digit zero or val > the code point
57 of the digit nine). -/
def isDigitRange (val : Int) : Except RtError wycc_obj :=
  if val < 0 then Except.ok (wycc_box_bool 0)
  else Except.ok (wycc_box_bool (if val < 48 then 0 else if val > 57 then 0 else 1))

/-- Transcription of wycc__isDigit from the C source: dispatch on the
tag (Wy_Int, Wy_Char, Wy_Byte each read the payload and run the common
range check), any other tag reaches WY_PANIC followed by exit(-3).
The WY_OBJ_SANE entry check concerns pointer validity and is modelled
at the heap layer (wycc__isDigitH), where an invalid reference exists;
at the value layer every wycc_obj is a well-formed box. -/
def wycc__isDigit (itm : wycc_obj) : Except RtError wycc_obj :=
  if itm.typ = WyTyp.Wy_Int then isDigitRange itm.ptr
  else if itm.typ = WyTyp.Wy_Char then isDigitRange itm.ptr
  else if itm.typ = WyTyp.Wy_Byte then isDigitRange itm.ptr
  else Except.error (RtError.panic panicFmt itm.typ (-3))

/-- The accepted input domain: the three tags the dispatch handles. -/
def acceptedTag (t : WyTyp) : Prop :=
  t = WyTyp.Wy_Int ∨ t = WyTyp.Wy_Char ∨ t = WyTyp.Wy_Byte

instance (t : WyTyp) : Decidable (acceptedTag t) :=
  if h : t = WyTyp.Wy_Int ∨ t = WyTyp.Wy_Char ∨ t = WyTyp.Wy_Byte then
    Decidable.isTrue h
  else
    Decidable.isFalse h

/-- Helper: the common range check returns the boxed indicator of
membership in the inclusive interval from 48 to 57. -/
theorem isDigitRange_eq (val : Int) :
    isDigitRange val =
      Except.ok (wycc_box_bool (if 48 ≤ val ∧ val ≤ 57 then 1 else 0)) := by
  unfold isDigitRange
  split_ifs <;> first | rfl | omega

/-- Helper: on the accepted domain, wycc__isDigit returns the boxed
indicator of the payload lying in the inclusive interval from 48 to 57. -/
theorem isDigit_run (itm : wycc_obj) (h : acceptedTag itm.typ) :
    wycc__isDigit itm =
      Except.ok (wycc_box_bool (if 48 ≤ itm.ptr ∧ itm.ptr ≤ 57 then 1 else 0)) := by
  rcases h with h | h | h <;> simp [wycc__isDigit, h, isDigitRange_eq]

/-- An entry of the FOM registry.  Modelled from the spec: a
registration call supplies a routine name, a type-signature string and
the callable entry point. -/
structure FomEntry : Type where
  name : String
  sig : String
  fn : wycc_obj → Except RtError wycc_obj

/-- Modelled from the spec: wycc_register_routine (declared in the
missing header) inserts one (name, signature, entry point) record into
the process-wide FOM registry, here a list with insertion at the
front. -/
def wycc_register_routine (name : String) (sig : String)
    (fn : wycc_obj → Except RtError wycc_obj) (reg : List FomEntry) :
    List FomEntry :=
  { name := name, sig := sig, fn := fn } :: reg

/-- Transcription of the registration-phase initializer __initor_b from
the C source: it performs exactly the single call
wycc_register_routine("isDigit", "[^b,v,c]", wycc__isDigit) on the
registry state and nothing else. -/
def __initor_b (reg : List FomEntry) : List FomEntry :=
  wycc_register_routine "isDigit" "[^b,v,c]" wycc__isDigit reg

/-- Transcription of the query-phase initializer __initor_d from the C
source: its body is an immediate return, so it leaves the registry
state untouched. -/
def __initor_d (reg : List FomEntry) : List FomEntry :=
  reg

/-- A record of the load-time initializer chain (struct wycc_initor):
a registration-phase callback, a query-phase callback and the pointer
to the next record (none for the end of the chain). -/
inductive wycc_initor : Type where
  | mk : (List FomEntry → List FomEntry) → (List FomEntry → List FomEntry) →
      Option wycc_initor → wycc_initor

/-- The functionr field (registration-phase callback) of a record. -/
def wycc_initor.functionr : wycc_initor → (List FomEntry → List FomEntry)
  | .mk f _ _ => f

/-- The functionq field (query-phase callback) of a record. -/
def wycc_initor.functionq : wycc_initor → (List FomEntry → List FomEntry)
  | .mk _ q _ => q

/-- The nxt field (next record in the chain) of a record. -/
def wycc_initor.nxt : wycc_initor → Option wycc_initor
  | .mk _ _ n => n

/-- Transcription of the load-time constructor __initor_a from the C
source: given the prior value of the global wycc_init_chain it fills
the static record __initor_c (nxt gets the prior chain head, functionr
gets __initor_b, functionq gets __initor_d) and makes that record the
new chain head. -/
def __initor_a (wycc_init_chain : Option wycc_initor) : Option wycc_initor :=
  some (wycc_initor.mk __initor_b __initor_d wycc_init_chain)

/-- The runtime state threaded by the heap layer: the heap of allocated
boxes, addressed by position, and the FOM registry.  Modelled from the
spec: boxes live in memory owned by the wider runtime; allocation
yields a fresh address. -/
structure RtState : Type where
  heap : List wycc_obj
  registry : List FomEntry

/-- Heap layer of wycc__isDigit: the argument is an address into the
heap.  WY_OBJ_SANE aborts when the address does not refer to a box
(the null or corrupted-pointer case of the C source); otherwise the
box is read (never written) and the value-level function runs on it,
with the result box of a successful run allocated at a fresh address
at the end of the heap, exactly as wycc_box_bool allocates. -/
def wycc__isDigitH (itm : Nat) (st : RtState) : Except RtError (Nat × RtState) :=
  match st.heap[itm]? with
  | none => Except.error (RtError.unsane "wycc__isDigit")
  | some obj =>
    match wycc__isDigit obj with
    | Except.error e => Except.error e
    | Except.ok r => Except.ok (st.heap.length, { st with heap := st.heap ++ [r] })

/-- Claim C1: for every input box whose tag is one of Wy_Int, Wy_Char,
Wy_Byte with signed payload p, wycc__isDigit returns a boxed boolean
that is true (1) iff 48 ≤ p ≤ 57; in particular every negative payload
yields false (0), regardless of magnitude. -/
theorem isDigit_true_iff_payload_in_digit_range (itm : wycc_obj)
    (h : acceptedTag itm.typ) :
    wycc__isDigit itm =
      Except.ok (wycc_box_bool (if 48 ≤ itm.ptr ∧ itm.ptr ≤ 57 then 1 else 0)) ∧
    (itm.ptr < 0 → wycc__isDigit itm = Except.ok (wycc_box_bool 0)) := by
  refine ⟨isDigit_run itm h, fun hneg => ?_⟩
  rw [isDigit_run itm h, if_neg (by omega)]

/-- Claim C1 witness: the concrete box Integer(53). -/
theorem isDigit_true_iff_payload_in_digit_range_witness :
    acceptedTag (wycc_obj.mk WyTyp.Wy_Int 53 1).typ ∧
    (wycc__isDigit ⟨WyTyp.Wy_Int, 53, 1⟩ =
      Except.ok (wycc_box_bool (if 48 ≤ (53 : Int) ∧ (53 : Int) ≤ 57 then 1 else 0)) ∧
     ((53 : Int) < 0 →
      wycc__isDigit ⟨WyTyp.Wy_Int, 53, 1⟩ = Except.ok (wycc_box_bool 0))) :=
  ⟨Or.inl rfl, isDigit_true_iff_payload_in_digit_range ⟨WyTyp.Wy_Int, 53, 1⟩ (Or.inl rfl)⟩

/-- Claim C2: any box whose tag is outside the accepted three makes
wycc__isDigit signal the fatal panic and not return a value: the
result is the error branch, carrying the diagnostic and the process
exit status -3. -/
theorem isDigit_unsupported_tag_panics (itm : wycc_obj)
    (h : ¬ acceptedTag itm.typ) :
    wycc__isDigit itm = Except.error (RtError.panic panicFmt itm.typ (-3)) := by
  simp only [acceptedTag, not_or] at h
  obtain ⟨h1, h2, h3⟩ := h
  simp [wycc__isDigit, h1, h2, h3]

/-- Claim C2 witness: the concrete box Boolean(1). -/
theorem isDigit_unsupported_tag_panics_witness :
    ¬ acceptedTag (wycc_obj.mk WyTyp.Wy_Bool 1 1).typ ∧
    wycc__isDigit ⟨WyTyp.Wy_Bool, 1, 1⟩ =
      Except.error (RtError.panic panicFmt WyTyp.Wy_Bool (-3)) :=
  ⟨by decide, isDigit_unsupported_tag_panics ⟨WyTyp.Wy_Bool, 1, 1⟩ (by decide)⟩

/-- Claim C3: the three accepted tag variants carrying the same payload
all produce the same boxed boolean result: the range test is
tag-independent. -/
theorem isDigit_tag_independent (p : Int) (n : Nat) (t₁ t₂ : WyTyp)
    (h₁ : acceptedTag t₁) (h₂ : acceptedTag t₂) :
    wycc__isDigit ⟨t₁, p, n⟩ = wycc__isDigit ⟨t₂, p, n⟩ := by
  rw [isDigit_run ⟨t₁, p, n⟩ h₁, isDigit_run ⟨t₂, p, n⟩ h₂]

/-- Claim C3 witness: Integer(53) against Character(53). -/
theorem isDigit_tag_independent_witness :
    acceptedTag WyTyp.Wy_Int ∧ acceptedTag WyTyp.Wy_Char ∧
    wycc__isDigit ⟨WyTyp.Wy_Int, 53, 1⟩ = wycc__isDigit ⟨WyTyp.Wy_Char, 53, 1⟩ :=
  ⟨Or.inl rfl, Or.inr (Or.inl rfl),
    isDigit_tag_independent 53 1 WyTyp.Wy_Int WyTyp.Wy_Char
      (Or.inl rfl) (Or.inr (Or.inl rfl))⟩

/-- Claim C4 (code bug): on the unsupported-tag path the diagnostic
does carry the offending tag as format argument, but the format string
names wycc__isLetter, not the invoked function wycc__isDigit: at the
concrete input Boolean(1) the panic carries panicFmt, which contains
the fragment isLetter and does not contain the fragment isDigit. -/
theorem isDigit_panic_message_names_wrong_function :
    wycc__isDigit ⟨WyTyp.Wy_Bool, 1, 1⟩ =
      Except.error (RtError.panic panicFmt WyTyp.Wy_Bool (-3)) ∧
    List.IsInfix "isLetter".toList panicFmt.toList ∧
    ¬ List.IsInfix "isDigit".toList panicFmt.toList := by
  refine ⟨rfl, ?_, ?_⟩ <;> decide

/-- Claim C5: on the accepted domain wycc__isDigit always returns a
valid boxed value (never the error branch, so never an absent result)
of variant Wy_Bool wrapping exactly 0 or 1, built fresh by
wycc_box_bool. -/
theorem isDigit_returns_boolean_box (itm : wycc_obj)
    (h : acceptedTag itm.typ) :
    ∃ b : Int, wycc__isDigit itm = Except.ok (wycc_box_bool b) ∧
      (b = 0 ∨ b = 1) ∧ (wycc_box_bool b).typ = WyTyp.Wy_Bool := by
  refine ⟨if 48 ≤ itm.ptr ∧ itm.ptr ≤ 57 then 1 else 0, isDigit_run itm h, ?_, rfl⟩
  split_ifs <;> simp

/-- Claim C5 witness: the concrete box Byte(47). -/
theorem isDigit_returns_boolean_box_witness :
    acceptedTag (wycc_obj.mk WyTyp.Wy_Byte 47 1).typ ∧
    ∃ b : Int, wycc__isDigit ⟨WyTyp.Wy_Byte, 47, 1⟩ = Except.ok (wycc_box_bool b) ∧
      (b = 0 ∨ b = 1) ∧ (wycc_box_bool b).typ = WyTyp.Wy_Bool :=
  ⟨Or.inr (Or.inr rfl),
    isDigit_returns_boolean_box ⟨WyTyp.Wy_Byte, 47, 1⟩ (Or.inr (Or.inr rfl))⟩

/-- Claim C8: the registration-phase initializer adds exactly one
record to the FOM registry, with name isDigit, the exact signature
string, and wycc__isDigit as entry point; the query-phase initializer
performs no action on the registry state. -/
theorem initor_b_registers_exactly_isDigit (reg : List FomEntry) :
    __initor_b reg =
      { name := "isDigit", sig := "[^b,v,c]", fn := wycc__isDigit } :: reg ∧
    __initor_d reg = reg :=
  ⟨rfl, rfl⟩

/-- Claim C9: the load-time constructor prepends this module record to
the initializer chain: the new head has the prior chain as its nxt
field and carries __initor_b and __initor_d as its two callbacks, so no
prior entry is lost. -/
theorem initor_a_prepends_chain (c : Option wycc_initor) :
    ∃ r, __initor_a c = some r ∧ r.nxt = c ∧
      r.functionr = __initor_b ∧ r.functionq = __initor_d :=
  ⟨wycc_initor.mk __initor_b __initor_d c, rfl, rfl, rfl, rfl⟩

/-- Claim C10: on the accepted domain the result depends only on the
tag and the payload: two boxes agreeing on those two fields give equal
boxed results whatever their reference counts hold. -/
theorem isDigit_depends_only_on_tag_and_payload (itm₁ itm₂ : wycc_obj)
    (h : acceptedTag itm₁.typ) (htag : itm₁.typ = itm₂.typ)
    (hptr : itm₁.ptr = itm₂.ptr) :
    wycc__isDigit itm₁ = wycc__isDigit itm₂ := by
  have h₂ : acceptedTag itm₂.typ := htag ▸ h
  rw [isDigit_run itm₁ h, isDigit_run itm₂ h₂, hptr]

/-- Claim C10 witness: Integer(53) with reference counts 1 and 99. -/
theorem isDigit_depends_only_on_tag_and_payload_witness :
    acceptedTag (wycc_obj.mk WyTyp.Wy_Int 53 1).typ ∧
    wycc__isDigit ⟨WyTyp.Wy_Int, 53, 1⟩ = wycc__isDigit ⟨WyTyp.Wy_Int, 53, 99⟩ :=
  ⟨Or.inl rfl,
    isDigit_depends_only_on_tag_and_payload ⟨WyTyp.Wy_Int, 53, 1⟩
      ⟨WyTyp.Wy_Int, 53, 99⟩ (Or.inl rfl) rfl rfl⟩

/-- Helper: on the accepted domain, one heap-layer call returns the
fresh address at the end of the heap and appends exactly the result
box, leaving the registry alone. -/
theorem isDigitH_run (addr : Nat) (st : RtState) (itm : wycc_obj)
    (hget : st.heap[addr]? = some itm) (h : acceptedTag itm.typ) :
    wycc__isDigitH addr st =
      Except.ok (st.heap.length,
        RtState.mk
          (st.heap ++ [wycc_box_bool (if 48 ≤ itm.ptr ∧ itm.ptr ≤ 57 then 1 else 0)])
          st.registry) := by
  unfold wycc__isDigitH
  rw [hget]
  simp only [isDigit_run itm h]

/-- Helper: a heap cell below the former length is untouched by the
allocation of the result box. -/
theorem heap_append_preserves (l : List wycc_obj) (r : wycc_obj) (i : Nat)
    (itm : wycc_obj) (hget : l[i]? = some itm) :
    (l ++ [r])[i]? = some itm := by
  rcases List.getElem?_eq_some.mp hget with ⟨hlt, _⟩
  rw [List.getElem?_append_left hlt, hget]

/-- Claim C6: two successive heap-layer calls on the same unmodified
input box succeed and store value-equal result boxes: both freshly
allocated results equal the boxed indicator of the digit range, and
the input cell still holds the original box between the calls. -/
theorem isDigit_idempotent_value_equal (addr : Nat) (st : RtState)
    (itm : wycc_obj) (hget : st.heap[addr]? = some itm)
    (h : acceptedTag itm.typ) :
    ∃ a₁ st₁ a₂ st₂,
      wycc__isDigitH addr st = Except.ok (a₁, st₁) ∧
      st₁.heap[addr]? = some itm ∧
      wycc__isDigitH addr st₁ = Except.ok (a₂, st₂) ∧
      st₂.heap[a₁]? =
        some (wycc_box_bool (if 48 ≤ itm.ptr ∧ itm.ptr ≤ 57 then 1 else 0)) ∧
      st₂.heap[a₂]? =
        some (wycc_box_bool (if 48 ≤ itm.ptr ∧ itm.ptr ≤ 57 then 1 else 0)) := by
  set b := wycc_box_bool (if 48 ≤ itm.ptr ∧ itm.ptr ≤ 57 then 1 else 0) with hb
  have hget₁ : (st.heap ++ [b])[addr]? = some itm :=
    heap_append_preserves st.heap b addr itm hget
  refine ⟨st.heap.length, RtState.mk (st.heap ++ [b]) st.registry,
    (st.heap ++ [b]).length, RtState.mk ((st.heap ++ [b]) ++ [b]) st.registry,
    isDigitH_run addr st itm hget h, hget₁, ?_, ?_, ?_⟩
  · exact isDigitH_run addr (RtState.mk (st.heap ++ [b]) st.registry) itm hget₁ h
  · exact heap_append_preserves (st.heap ++ [b]) b st.heap.length b
      (List.getElem?_concat_length st.heap b)
  · exact List.getElem?_concat_length (st.heap ++ [b]) b

/-- Claim C6 witness: a one-cell heap holding Integer(53). -/
theorem isDigit_idempotent_value_equal_witness :
    (RtState.mk [wycc_obj.mk WyTyp.Wy_Int 53 1] []).heap[0]? =
      some (wycc_obj.mk WyTyp.Wy_Int 53 1) ∧
    ∃ a₁ st₁ a₂ st₂,
      wycc__isDigitH 0 (RtState.mk [wycc_obj.mk WyTyp.Wy_Int 53 1] []) =
        Except.ok (a₁, st₁) ∧
      st₁.heap[0]? = some (wycc_obj.mk WyTyp.Wy_Int 53 1) ∧
      wycc__isDigitH 0 st₁ = Except.ok (a₂, st₂) ∧
      st₂.heap[a₁]? =
        some (wycc_box_bool (if 48 ≤ (53 : Int) ∧ (53 : Int) ≤ 57 then 1 else 0)) ∧
      st₂.heap[a₂]? =
        some (wycc_box_bool (if 48 ≤ (53 : Int) ∧ (53 : Int) ≤ 57 then 1 else 0)) :=
  ⟨rfl, isDigit_idempotent_value_equal 0
    (RtState.mk [wycc_obj.mk WyTyp.Wy_Int 53 1] [])
    (wycc_obj.mk WyTyp.Wy_Int 53 1) rfl (Or.inl rfl)⟩

/-- Claim C7: on the accepted domain the heap-layer call has no side
effect beyond allocating the result box: the new state is the old heap
with exactly the result box appended and the registry unchanged, and
the input cell still holds the original box (tag and payload
untouched) after the call. -/
theorem isDigit_no_side_effects (addr : Nat) (st : RtState) (itm : wycc_obj)
    (hget : st.heap[addr]? = some itm) (h : acceptedTag itm.typ) :
    wycc__isDigitH addr st =
      Except.ok (st.heap.length,
        RtState.mk
          (st.heap ++ [wycc_box_bool (if 48 ≤ itm.ptr ∧ itm.ptr ≤ 57 then 1 else 0)])
          st.registry) ∧
    (st.heap ++ [wycc_box_bool (if 48 ≤ itm.ptr ∧ itm.ptr ≤ 57 then 1 else 0)])[addr]? =
      some itm :=
  ⟨isDigitH_run addr st itm hget h,
   heap_append_preserves st.heap _ addr itm hget⟩

/-- Claim C7 witness: a one-cell heap holding Character(53) and a
one-entry registry. -/
theorem isDigit_no_side_effects_witness :
    (RtState.mk [wycc_obj.mk WyTyp.Wy_Char 53 1]
      [FomEntry.mk "isDigit" "[^b,v,c]" wycc__isDigit]).heap[0]? =
      some (wycc_obj.mk WyTyp.Wy_Char 53 1) ∧
    (wycc__isDigitH 0 (RtState.mk [wycc_obj.mk WyTyp.Wy_Char 53 1]
        [FomEntry.mk "isDigit" "[^b,v,c]" wycc__isDigit]) =
      Except.ok (1,
        RtState.mk
          ([wycc_obj.mk WyTyp.Wy_Char 53 1] ++
            [wycc_box_bool (if 48 ≤ (53 : Int) ∧ (53 : Int) ≤ 57 then 1 else 0)])
          [FomEntry.mk "isDigit" "[^b,v,c]" wycc__isDigit]) ∧
    ([wycc_obj.mk WyTyp.Wy_Char 53 1] ++
        [wycc_box_bool (if 48 ≤ (53 : Int) ∧ (53 : Int) ≤ 57 then 1 else 0)])[0]? =
      some (wycc_obj.mk WyTyp.Wy_Char 53 1)) :=
  ⟨rfl, isDigit_no_side_effects 0
    (RtState.mk [wycc_obj.mk WyTyp.Wy_Char 53 1]
      [FomEntry.mk "isDigit" "[^b,v,c]" wycc__isDigit])
    (wycc_obj.mk WyTyp.Wy_Char 53 1) rfl (Or.inr (Or.inl rfl))⟩
